import Mathlib

/-!
# url-checker: shallow embedding and verification

Shallow embedding of the two Rust entry points of the `url-checker`
repository:

* `src/src/main.rs` (CLI variant) — namespace `Cli`: `check_url`,
  the result-collection loop of `main` (lines 170–250), the JSON
  metadata export (lines 253–271) and the statistics display
  (`print_statistics`).
* `src/gui/src-tauri/src/main.rs` (GUI variant) — namespace `Gui`:
  `check_single_url` and the aggregation in `check_urls`.

Network behaviour is an input to the model: each target comes with a
`NetResult` describing what `client.get(url).send().await` returned
(an HTTP response or a transport error), the elapsed wall-clock
milliseconds, and the completion timestamp string.  Machine integers
(`u128`, `u64`, `usize`) are modelled as `Nat`; the quantities involved
(millisecond timings, content lengths, counters) never approach the
wrap-around boundary in the claims considered.
-/

/-- One HTTP response as seen by the checker: `r.status().as_u16()`,
`r.status().canonical_reason()` and `r.content_length()`. -/
structure Response where
  code : Nat
  canonicalReason : Option String
  contentLength : Option Nat
deriving Repr, DecidableEq

deriving instance DecidableEq for Except

/-- The outcome of one `client.get(url).send().await` attempt plus the
ambient measurements: the response or the transport error message, the
elapsed milliseconds measured around the call, and the UTC timestamp
string taken at completion. -/
structure NetResult where
  resp : Except String Response
  elapsed : Nat
  stamp : String
deriving Repr, DecidableEq

/-- `u128::MAX`, the initial value of the `min_time` accumulator. -/
def U128MAX : Nat := 2 ^ 128 - 1

/-- Rust `str::starts_with` with a `char` pattern (as used in
`row.status.starts_with('2')` etc.): the string's first character
equals the pattern. -/
def startsWithChar (s : String) (c : Char) : Bool :=
  match s.data with
  | [] => false
  | d :: _ => d == c

/-- The min-accumulator update of both variants:
`if t < stats.min_time { stats.min_time = t; }`. -/
def minStep (m t : Nat) : Nat := if t < m then t else m

/-- The max-accumulator update of both variants:
`if t > stats.max_time { stats.max_time = t; }`. -/
def maxStep (m t : Nat) : Nat := if t > m then t else m

namespace Cli

/-- `ResultRow` from `src/src/main.rs` (lines 49–57). -/
structure ResultRow where
  url : String
  status : String
  reason : String
  time_ms : Nat
  size_bytes : Nat
  timestamp : String
deriving Repr, DecidableEq

/-- `Stats` from `src/src/main.rs` (lines 61–69). -/
structure Stats where
  total : Nat
  up : Nat
  down : Nat
  total_time : Nat
  min_time : Nat
  max_time : Nat
  total_size : Nat
deriving Repr, DecidableEq

/-- The initial `Stats` value of `main` (lines 149–157). -/
def initStats : Stats :=
  { total := 0, up := 0, down := 0, total_time := 0,
    min_time := U128MAX, max_time := 0, total_size := 0 }

/-- `check_url` from `src/src/main.rs` (lines 317–354): on a received
response it builds a `ResultRow`; on a transport failure it returns
`Err((url, error_message))`. -/
def check_url (url : String) (net : NetResult) :
    Except (String × String) ResultRow :=
  match net.resp with
  | .ok r =>
      .ok { url := url
            status := toString r.code
            reason := r.canonicalReason.getD ""
            time_ms := net.elapsed
            size_bytes := r.contentLength.getD 0
            timestamp := net.stamp }
  | .error e => .error (url, e)

/-- The per-result statistics update of the `for r in results` loop of
`main` (lines 170–250): an `Ok(row)` adds to `total`/`total_time`/
`total_size`, updates `min_time`/`max_time`, and bumps `up` when the
status string starts with `'2'` or `'3'`, otherwise `down`; an
`Err((url, msg))` bumps `total` and `down` only. -/
def statsStep (s : Stats) (r : Except (String × String) ResultRow) : Stats :=
  match r with
  | .ok row =>
      let s1 : Stats :=
        { s with total := s.total + 1
                 total_time := s.total_time + row.time_ms
                 total_size := s.total_size + row.size_bytes }
      let s2 : Stats :=
        { s1 with min_time := minStep s1.min_time row.time_ms,
                  max_time := maxStep s1.max_time row.time_ms }
      if startsWithChar row.status '2' || startsWithChar row.status '3' then
        { s2 with up := s2.up + 1 }
      else
        { s2 with down := s2.down + 1 }
  | .error _ => { s with total := s.total + 1, down := s.down + 1 }

/-- The row pushed to `all_results` for one loop entry: `Ok(row)` is
pushed as is; `Err((url, msg))` is converted to an error row with
status `"ERROR"`, `time_ms = 0`, `size_bytes = 0` and a timestamp
freshly taken at processing time (modelled by `stamp`). -/
def collectRow (stamp : String) (r : Except (String × String) ResultRow) :
    ResultRow :=
  match r with
  | .ok row => row
  | .error (url, msg) =>
      { url := url, status := "ERROR", reason := msg,
        time_ms := 0, size_bytes := 0, timestamp := stamp }

/-- The whole `for r in results` loop of `main` (lines 170–250):
threads the statistics accumulator through `statsStep` and pushes one
row per entry.  `clock i` supplies the `chrono::Utc::now()` timestamp
when the `i`-th entry needs a fresh one. -/
def mainLoop (clock : Nat → String) :
    Nat → Stats → List (Except (String × String) ResultRow) →
    Stats × List ResultRow
  | _, s, [] => (s, [])
  | i, s, r :: rest =>
      let out := mainLoop clock (i + 1) (statsStep s r) rest
      (out.1, collectRow (clock i) r :: out.2)

/-- The statistics actually accumulated over a results list. -/
def statsOf (rs : List (Except (String × String) ResultRow)) : Stats :=
  rs.foldl statsStep initStats

/-- One full CLI run over a target list in a given completion order:
`check_url` applied to every target, then the collection loop.
`buffer_unordered` delivers the per-target results in an arbitrary
order, so theorems quantify over permutations of this list. -/
def mainRun (clock : Nat → String) (targets : List (String × NetResult)) :
    Stats × List ResultRow :=
  mainLoop clock 0 initStats (targets.map fun t => check_url t.1 t.2)

/-- `avg_time_ms` of the JSON metadata export (line 261) and of
`print_statistics` (lines 389–393). -/
def jsonAvgTime (s : Stats) : Nat :=
  if s.up > 0 then s.total_time / s.up else 0

/-- `min_time_ms` of the JSON metadata export (line 262): the
`u128::MAX` sentinel is replaced by `0`. -/
def jsonMinTime (s : Stats) : Nat :=
  if s.min_time ≠ U128MAX then s.min_time else 0

/-- `max_time_ms` of the JSON metadata export (line 263). -/
def jsonMaxTime (s : Stats) : Nat := s.max_time

/-- The "Fastest response" line of `print_statistics` (lines 400–408):
prints the measured minimum, or `"N/A"` while `min_time` still holds
the `u128::MAX` sentinel. -/
def printMinDisplay (s : Stats) : String :=
  if s.min_time ≠ U128MAX then toString s.min_time ++ " ms" else "N/A"

/-- The `time_ms` values of the entries that received an HTTP response
(the `Ok` entries of the results list). -/
def okTimes (rs : List (Except (String × String) ResultRow)) : List Nat :=
  rs.filterMap fun r => (r.toOption).map (·.time_ms)

/-- The `size_bytes` values of the entries that received an HTTP
response. -/
def okSizes (rs : List (Except (String × String) ResultRow)) : List Nat :=
  rs.filterMap fun r => (r.toOption).map (·.size_bytes)

/-- The `up` test of the loop: a received row whose status string
starts with `'2'` or `'3'`. -/
def isUpEntry (r : Except (String × String) ResultRow) : Bool :=
  match r with
  | .ok row => startsWithChar row.status '2' || startsWithChar row.status '3'
  | .error _ => false

/-- The url carried by a loop entry (both the `Ok` row and the
`Err` pair echo the input target). -/
def entryUrl (r : Except (String × String) ResultRow) : String :=
  match r with
  | .ok row => row.url
  | .error (url, _) => url

end Cli

namespace Gui

/-- `UrlResult` from `src/gui/src-tauri/src/main.rs` (lines 10–18). -/
structure UrlResult where
  url : String
  status : String
  reason : String
  time_ms : Nat
  size_bytes : Nat
  timestamp : String
  success : Bool
deriving Repr, DecidableEq

/-- `Stats` from `src/gui/src-tauri/src/main.rs` (lines 37–45). -/
structure Stats where
  total : Nat
  up : Nat
  down : Nat
  avg_time : Nat
  min_time : Nat
  max_time : Nat
  total_size : Nat
deriving Repr, DecidableEq

/-- The initial `Stats` value of `check_urls` (lines 58–66). -/
def initStats : Stats :=
  { total := 0, up := 0, down := 0, avg_time := 0,
    min_time := U128MAX, max_time := 0, total_size := 0 }

/-- `check_single_url` from `src/gui/src-tauri/src/main.rs`
(lines 126–166).  The Rust signature is `Result<UrlResult, String>` but
both branches return `Ok(...)`, so the model returns the record
directly: a received response yields a row with
`success = 200 ≤ code < 400`; a transport failure yields the
`"ERROR"` row with the elapsed time still recorded. -/
def check_single_url (url : String) (net : NetResult) : UrlResult :=
  match net.resp with
  | .ok r =>
      { url := url
        status := toString r.code
        reason := r.canonicalReason.getD ""
        time_ms := net.elapsed
        size_bytes := r.contentLength.getD 0
        timestamp := net.stamp
        success := decide (200 ≤ r.code ∧ r.code < 400) }
  | .error e =>
      { url := url, status := "ERROR", reason := e,
        time_ms := net.elapsed, size_bytes := 0,
        timestamp := net.stamp, success := false }

/-- The per-result statistics update of `check_urls` (lines 83–108):
every result bumps `total` and `total_size`; a success bumps `up` and
updates `min_time`/`max_time`; a failure bumps `down`. -/
def statsStep (s : Stats) (r : UrlResult) : Stats :=
  let s1 : Stats := { s with total := s.total + 1,
                             total_size := s.total_size + r.size_bytes }
  if r.success then
    let s2 : Stats := { s1 with up := s1.up + 1 }
    { s2 with min_time := minStep s2.min_time r.time_ms,
              max_time := maxStep s2.max_time r.time_ms }
  else
    { s1 with down := s1.down + 1 }

/-- The `time_ms` values of the successful results. -/
def successTimes (results : List UrlResult) : List Nat :=
  (results.filter (·.success)).map (·.time_ms)

/-- The post-loop fix-up of `check_urls` (lines 110–120): with at least
one success, `avg_time` becomes the sum of the successful times divided
by `up`; otherwise `min_time` is overwritten with `0`. -/
def finalize (results : List UrlResult) (s : Stats) : Stats :=
  if s.up > 0 then
    { s with avg_time := (successTimes results).sum / s.up }
  else
    { s with min_time := 0 }

/-- `check_urls` from `src/gui/src-tauri/src/main.rs` (lines 50–123):
one `check_single_url` per target, results collected in spawn order,
statistics folded over them and then finalized. -/
def check_urls (targets : List (String × NetResult)) :
    List UrlResult × Stats :=
  let results := targets.map fun t => check_single_url t.1 t.2
  (results, finalize results (results.foldl statsStep initStats))

end Gui

/-!
## Byte-level model of the CLI's console URL truncation

`main` displays a long url as `format!("{}...", &row.url[..45])` when
`row.url.len() > 48` (lines 198–202 and 231–235).  In Rust the slice
`&s[..45]` panics unless byte index 45 is a UTF-8 character boundary.
This part models the url as its UTF-8 byte list.
-/

/-- `str::is_char_boundary`: index `0` is a boundary; an in-range index
is a boundary iff the byte there is not a continuation byte
(`0x80..=0xBF`); past-the-end only `len` itself is a boundary. -/
def isCharBoundary (bytes : List Nat) (i : Nat) : Bool :=
  if i = 0 then true
  else
    match bytes.get? i with
    | some b => b < 128 || 192 ≤ b
    | none => i = bytes.length

/-- The UTF-8 bytes of `"..."`. -/
def dotsBytes : List Nat := [46, 46, 46]

/-- The url display step of `main` (lines 198–202, repeated at
231–235) on the byte level: a url longer than 48 bytes is sliced at
byte 45 and suffixed with `"..."`; `none` models the panic of
`&row.url[..45]` when byte 45 is not a character boundary. -/
def urlDisplay (bytes : List Nat) : Option (List Nat) :=
  if bytes.length > 48 then
    if isCharBoundary bytes 45 then some (bytes.take 45 ++ dotsBytes)
    else none
  else some bytes

/-- A 49-byte URL whose bytes 44–45 are the two-byte UTF-8 encoding of
`é` (`0xC3 0xA9`): 44 bytes `h`, then `é`, then `"abc"`. -/
def c10url : List Nat :=
  List.replicate 44 104 ++ [195, 169] ++ [97, 98, 99]

/-!
## Concrete fixtures used in witnesses and counterexamples
-/

/-- A transport failure ("connection timed out") observed after 5 ms. -/
def netErr : NetResult :=
  { resp := .error "connection timed out", elapsed := 5, stamp := "s" }

/-- An HTTP 404 response observed after 7 ms advertising 3 bytes. -/
def net404 : NetResult :=
  { resp := .ok { code := 404, canonicalReason := some "Not Found",
                  contentLength := some 3 },
    elapsed := 7, stamp := "s" }

/-- An HTTP 200 response observed after 0 ms advertising 10 bytes. -/
def net200 : NetResult :=
  { resp := .ok { code := 200, canonicalReason := some "OK",
                  contentLength := some 10 },
    elapsed := 0, stamp := "s" }

/-- A constant wall clock feeding the CLI loop's error-row timestamps. -/
def clock0 : Nat → String := fun _ => "1970-01-01 00:00:00 UTC"

/-- A two-target input list: one 200 response, one transport failure. -/
def targets0 : List (String × NetResult) :=
  [("http://a", net200), ("http://b", netErr)]

/-- The per-target results of `targets0` in dispatch order. -/
def rs0 : List (Except (String × String) Cli.ResultRow) :=
  targets0.map fun t => Cli.check_url t.1 t.2

/-- The per-target results of `targets0` in the opposite completion
order. -/
def rs0swap : List (Except (String × String) Cli.ResultRow) :=
  [Cli.check_url "http://b" netErr, Cli.check_url "http://a" net200]

/-- GUI results for `targets0` in dispatch order. -/
def gl0 : List Gui.UrlResult :=
  [Gui.check_single_url "http://a" net200, Gui.check_single_url "http://b" netErr]

/-- GUI results for `targets0` in the opposite order. -/
def gl0swap : List Gui.UrlResult :=
  [Gui.check_single_url "http://b" netErr, Gui.check_single_url "http://a" net200]

/-!
## Auxiliary lemmas
-/

theorem minStep_right_comm (z x y : Nat) :
    minStep (minStep z x) y = minStep (minStep z y) x := by
  unfold minStep; split_ifs <;> omega

theorem maxStep_right_comm (z x y : Nat) :
    maxStep (maxStep z x) y = maxStep (maxStep z y) x := by
  unfold maxStep; split_ifs <;> omega

theorem foldl_minStep_perm {l l' : List Nat} (h : l.Perm l') (init : Nat) :
    l.foldl minStep init = l'.foldl minStep init :=
  h.foldl_eq' (fun x _ y _ z => minStep_right_comm z x y) init

theorem foldl_maxStep_perm {l l' : List Nat} (h : l.Perm l') (init : Nat) :
    l.foldl maxStep init = l'.foldl maxStep init :=
  h.foldl_eq' (fun x _ y _ z => maxStep_right_comm z x y) init

theorem cliStatsExt (s t : Cli.Stats)
    (h1 : s.total = t.total) (h2 : s.up = t.up) (h3 : s.down = t.down)
    (h4 : s.total_time = t.total_time) (h5 : s.min_time = t.min_time)
    (h6 : s.max_time = t.max_time) (h7 : s.total_size = t.total_size) :
    s = t := by
  cases s; cases t; simp_all

theorem guiStatsExt (s t : Gui.Stats)
    (h1 : s.total = t.total) (h2 : s.up = t.up) (h3 : s.down = t.down)
    (h4 : s.avg_time = t.avg_time) (h5 : s.min_time = t.min_time)
    (h6 : s.max_time = t.max_time) (h7 : s.total_size = t.total_size) :
    s = t := by
  cases s; cases t; simp_all

theorem okTimes_cons_ok (row : Cli.ResultRow)
    (rest : List (Except (String × String) Cli.ResultRow)) :
    Cli.okTimes (.ok row :: rest) = row.time_ms :: Cli.okTimes rest := by
  simp [Cli.okTimes, Except.toOption]

theorem okTimes_cons_error (e : String × String)
    (rest : List (Except (String × String) Cli.ResultRow)) :
    Cli.okTimes (.error e :: rest) = Cli.okTimes rest := by
  simp [Cli.okTimes, Except.toOption]

theorem okSizes_cons_ok (row : Cli.ResultRow)
    (rest : List (Except (String × String) Cli.ResultRow)) :
    Cli.okSizes (.ok row :: rest) = row.size_bytes :: Cli.okSizes rest := by
  simp [Cli.okSizes, Except.toOption]

theorem okSizes_cons_error (e : String × String)
    (rest : List (Except (String × String) Cli.ResultRow)) :
    Cli.okSizes (.error e :: rest) = Cli.okSizes rest := by
  simp [Cli.okSizes, Except.toOption]

theorem cliFold_total (rs : List (Except (String × String) Cli.ResultRow)) :
    ∀ s : Cli.Stats, (rs.foldl Cli.statsStep s).total = s.total + rs.length := by
  induction rs with
  | nil => intro s; simp
  | cons r rest ih =>
    intro s
    rw [List.foldl_cons, ih]
    cases r with
    | ok row => simp only [Cli.statsStep]; split <;> simp <;> omega
    | error e => simp only [Cli.statsStep]; simp; omega

theorem cliFold_up (rs : List (Except (String × String) Cli.ResultRow)) :
    ∀ s : Cli.Stats,
      (rs.foldl Cli.statsStep s).up = s.up + rs.countP Cli.isUpEntry := by
  induction rs with
  | nil => intro s; simp
  | cons r rest ih =>
    intro s
    rw [List.foldl_cons, ih, List.countP_cons]
    cases r with
    | ok row =>
      simp only [Cli.statsStep, Cli.isUpEntry]
      split <;> simp_all <;> omega
    | error e => simp [Cli.statsStep, Cli.isUpEntry]

theorem cliFold_down (rs : List (Except (String × String) Cli.ResultRow)) :
    ∀ s : Cli.Stats,
      (rs.foldl Cli.statsStep s).down =
        s.down + rs.countP (fun r => ! Cli.isUpEntry r) := by
  induction rs with
  | nil => intro s; simp
  | cons r rest ih =>
    intro s
    rw [List.foldl_cons, ih, List.countP_cons]
    cases r with
    | ok row =>
      simp only [Cli.statsStep, Cli.isUpEntry]
      split <;> rename_i h <;> simp [h] <;> omega
    | error e =>
      have he : Cli.isUpEntry (Except.error e) = false := rfl
      simp [Cli.statsStep, he]
      omega

theorem cliFold_total_time (rs : List (Except (String × String) Cli.ResultRow)) :
    ∀ s : Cli.Stats,
      (rs.foldl Cli.statsStep s).total_time =
        s.total_time + (Cli.okTimes rs).sum := by
  induction rs with
  | nil => intro s; simp [Cli.okTimes]
  | cons r rest ih =>
    intro s
    rw [List.foldl_cons, ih]
    cases r with
    | ok row =>
      rw [okTimes_cons_ok, List.sum_cons]
      simp only [Cli.statsStep]
      split <;> simp <;> omega
    | error e => rw [okTimes_cons_error]; simp [Cli.statsStep]

theorem cliFold_total_size (rs : List (Except (String × String) Cli.ResultRow)) :
    ∀ s : Cli.Stats,
      (rs.foldl Cli.statsStep s).total_size =
        s.total_size + (Cli.okSizes rs).sum := by
  induction rs with
  | nil => intro s; simp [Cli.okSizes]
  | cons r rest ih =>
    intro s
    rw [List.foldl_cons, ih]
    cases r with
    | ok row =>
      rw [okSizes_cons_ok, List.sum_cons]
      simp only [Cli.statsStep]
      split <;> simp <;> omega
    | error e => rw [okSizes_cons_error]; simp [Cli.statsStep]

theorem cliFold_min_time (rs : List (Except (String × String) Cli.ResultRow)) :
    ∀ s : Cli.Stats,
      (rs.foldl Cli.statsStep s).min_time =
        (Cli.okTimes rs).foldl minStep s.min_time := by
  induction rs with
  | nil => intro s; simp [Cli.okTimes]
  | cons r rest ih =>
    intro s
    rw [List.foldl_cons, ih]
    cases r with
    | ok row =>
      rw [okTimes_cons_ok, List.foldl_cons]
      simp only [Cli.statsStep]
      split <;> simp
    | error e => rw [okTimes_cons_error]; simp [Cli.statsStep]

theorem cliFold_max_time (rs : List (Except (String × String) Cli.ResultRow)) :
    ∀ s : Cli.Stats,
      (rs.foldl Cli.statsStep s).max_time =
        (Cli.okTimes rs).foldl maxStep s.max_time := by
  induction rs with
  | nil => intro s; simp [Cli.okTimes]
  | cons r rest ih =>
    intro s
    rw [List.foldl_cons, ih]
    cases r with
    | ok row =>
      rw [okTimes_cons_ok, List.foldl_cons]
      simp only [Cli.statsStep]
      split <;> simp
    | error e => rw [okTimes_cons_error]; simp [Cli.statsStep]

theorem successTimes_cons (r : Gui.UrlResult) (rest : List Gui.UrlResult) :
    Gui.successTimes (r :: rest) =
      if r.success then r.time_ms :: Gui.successTimes rest
      else Gui.successTimes rest := by
  simp only [Gui.successTimes, List.filter_cons]
  split <;> simp

theorem guiFold_total (results : List Gui.UrlResult) :
    ∀ s : Gui.Stats,
      (results.foldl Gui.statsStep s).total = s.total + results.length := by
  induction results with
  | nil => intro s; simp
  | cons r rest ih =>
    intro s
    rw [List.foldl_cons, ih]
    simp only [Gui.statsStep]
    split <;> simp <;> omega

theorem guiFold_up (results : List Gui.UrlResult) :
    ∀ s : Gui.Stats,
      (results.foldl Gui.statsStep s).up =
        s.up + results.countP (·.success) := by
  induction results with
  | nil => intro s; simp
  | cons r rest ih =>
    intro s
    rw [List.foldl_cons, ih, List.countP_cons]
    simp only [Gui.statsStep]
    split <;> rename_i h <;> simp [h] <;> omega

theorem guiFold_down (results : List Gui.UrlResult) :
    ∀ s : Gui.Stats,
      (results.foldl Gui.statsStep s).down =
        s.down + results.countP (fun r => ! r.success) := by
  induction results with
  | nil => intro s; simp
  | cons r rest ih =>
    intro s
    rw [List.foldl_cons, ih, List.countP_cons]
    simp only [Gui.statsStep]
    split <;> rename_i h <;> simp [h] <;> omega

theorem guiFold_avg (results : List Gui.UrlResult) :
    ∀ s : Gui.Stats,
      (results.foldl Gui.statsStep s).avg_time = s.avg_time := by
  induction results with
  | nil => intro s; rfl
  | cons r rest ih =>
    intro s
    rw [List.foldl_cons, ih]
    simp only [Gui.statsStep]
    split <;> rfl

theorem guiFold_min_time (results : List Gui.UrlResult) :
    ∀ s : Gui.Stats,
      (results.foldl Gui.statsStep s).min_time =
        (Gui.successTimes results).foldl minStep s.min_time := by
  induction results with
  | nil => intro s; simp [Gui.successTimes]
  | cons r rest ih =>
    intro s
    rw [List.foldl_cons, ih, successTimes_cons]
    simp only [Gui.statsStep]
    split <;> rename_i h <;> simp [h]

theorem guiFold_max_time (results : List Gui.UrlResult) :
    ∀ s : Gui.Stats,
      (results.foldl Gui.statsStep s).max_time =
        (Gui.successTimes results).foldl maxStep s.max_time := by
  induction results with
  | nil => intro s; simp [Gui.successTimes]
  | cons r rest ih =>
    intro s
    rw [List.foldl_cons, ih, successTimes_cons]
    simp only [Gui.statsStep]
    split <;> rename_i h <;> simp [h]

theorem guiFold_total_size (results : List Gui.UrlResult) :
    ∀ s : Gui.Stats,
      (results.foldl Gui.statsStep s).total_size =
        s.total_size + (results.map (·.size_bytes)).sum := by
  induction results with
  | nil => intro s; simp
  | cons r rest ih =>
    intro s
    rw [List.foldl_cons, ih]
    simp only [Gui.statsStep]
    split <;> simp <;> omega

theorem finalize_total (results : List Gui.UrlResult) (s : Gui.Stats) :
    (Gui.finalize results s).total = s.total := by
  unfold Gui.finalize; split <;> rfl

theorem finalize_up (results : List Gui.UrlResult) (s : Gui.Stats) :
    (Gui.finalize results s).up = s.up := by
  unfold Gui.finalize; split <;> rfl

theorem finalize_down (results : List Gui.UrlResult) (s : Gui.Stats) :
    (Gui.finalize results s).down = s.down := by
  unfold Gui.finalize; split <;> rfl

theorem finalize_max_time (results : List Gui.UrlResult) (s : Gui.Stats) :
    (Gui.finalize results s).max_time = s.max_time := by
  unfold Gui.finalize; split <;> rfl

theorem finalize_total_size (results : List Gui.UrlResult) (s : Gui.Stats) :
    (Gui.finalize results s).total_size = s.total_size := by
  unfold Gui.finalize; split <;> rfl

theorem mainLoop_fst (clock : Nat → String)
    (rs : List (Except (String × String) Cli.ResultRow)) :
    ∀ (i : Nat) (s : Cli.Stats),
      (Cli.mainLoop clock i s rs).1 = rs.foldl Cli.statsStep s := by
  induction rs with
  | nil => intro i s; rfl
  | cons r rest ih => intro i s; simp [Cli.mainLoop, ih]

theorem collectRow_url (stamp : String)
    (r : Except (String × String) Cli.ResultRow) :
    (Cli.collectRow stamp r).url = Cli.entryUrl r := by
  cases r with
  | ok row => rfl
  | error e => cases e; rfl

theorem mainLoop_snd_urls (clock : Nat → String)
    (rs : List (Except (String × String) Cli.ResultRow)) :
    ∀ (i : Nat) (s : Cli.Stats),
      ((Cli.mainLoop clock i s rs).2).map (fun row => row.url) =
        rs.map Cli.entryUrl := by
  induction rs with
  | nil => intro i s; rfl
  | cons r rest ih => intro i s; simp [Cli.mainLoop, ih, collectRow_url]

theorem mainLoop_snd_length (clock : Nat → String)
    (rs : List (Except (String × String) Cli.ResultRow)) :
    ∀ (i : Nat) (s : Cli.Stats),
      ((Cli.mainLoop clock i s rs).2).length = rs.length := by
  induction rs with
  | nil => intro i s; rfl
  | cons r rest ih => intro i s; simp [Cli.mainLoop, ih]

theorem entryUrl_check_url (u : String) (n : NetResult) :
    Cli.entryUrl (Cli.check_url u n) = u := by
  rcases n with ⟨resp, e, st⟩
  cases resp <;> rfl

theorem check_single_url_url (u : String) (n : NetResult) :
    (Gui.check_single_url u n).url = u := by
  rcases n with ⟨resp, e, st⟩
  cases resp <;> rfl

theorem okTimes_perm {rs rs' : List (Except (String × String) Cli.ResultRow)}
    (h : rs.Perm rs') : (Cli.okTimes rs).Perm (Cli.okTimes rs') :=
  h.filterMap _

theorem okSizes_perm {rs rs' : List (Except (String × String) Cli.ResultRow)}
    (h : rs.Perm rs') : (Cli.okSizes rs).Perm (Cli.okSizes rs') :=
  h.filterMap _

theorem successTimes_perm {l l' : List Gui.UrlResult} (h : l.Perm l') :
    (Gui.successTimes l).Perm (Gui.successTimes l') :=
  (h.filter _).map _

theorem cliStatsOf_perm {rs rs' : List (Except (String × String) Cli.ResultRow)}
    (h : rs.Perm rs') : Cli.statsOf rs = Cli.statsOf rs' := by
  unfold Cli.statsOf
  apply cliStatsExt
  · rw [cliFold_total, cliFold_total, h.length_eq]
  · rw [cliFold_up, cliFold_up, List.Perm.countP_eq _ h]
  · rw [cliFold_down, cliFold_down, List.Perm.countP_eq _ h]
  · rw [cliFold_total_time, cliFold_total_time, (okTimes_perm h).sum_eq]
  · rw [cliFold_min_time, cliFold_min_time, foldl_minStep_perm (okTimes_perm h)]
  · rw [cliFold_max_time, cliFold_max_time, foldl_maxStep_perm (okTimes_perm h)]
  · rw [cliFold_total_size, cliFold_total_size, (okSizes_perm h).sum_eq]

theorem guiStatsFold_perm {l l' : List Gui.UrlResult} (h : l.Perm l') :
    l.foldl Gui.statsStep Gui.initStats = l'.foldl Gui.statsStep Gui.initStats := by
  apply guiStatsExt
  · rw [guiFold_total, guiFold_total, h.length_eq]
  · rw [guiFold_up, guiFold_up, List.Perm.countP_eq _ h]
  · rw [guiFold_down, guiFold_down, List.Perm.countP_eq _ h]
  · rw [guiFold_avg, guiFold_avg]
  · rw [guiFold_min_time, guiFold_min_time, foldl_minStep_perm (successTimes_perm h)]
  · rw [guiFold_max_time, guiFold_max_time, foldl_maxStep_perm (successTimes_perm h)]
  · rw [guiFold_total_size, guiFold_total_size, (h.map _).sum_eq]

theorem guiStats_perm {l l' : List Gui.UrlResult} (h : l.Perm l') :
    Gui.finalize l (l.foldl Gui.statsStep Gui.initStats) =
      Gui.finalize l' (l'.foldl Gui.statsStep Gui.initStats) := by
  rw [guiStatsFold_perm h]
  unfold Gui.finalize
  rw [(successTimes_perm h).sum_eq]

theorem countP_add_countP_not {α : Type} (p q : α → Bool)
    (hq : ∀ a, q a = ! p a) (l : List α) :
    l.countP p + l.countP q = l.length := by
  induction l with
  | nil => rfl
  | cons x rest ih =>
    rw [List.countP_cons, List.countP_cons, List.length_cons, hq x]
    by_cases h : p x <;> simp [h] <;> omega

set_option maxRecDepth 20000 in
set_option maxHeartbeats 2000000 in
theorem startsWith23_iff (code : Nat) (h2 : code < 1000) (h1 : 100 ≤ code) :
    (startsWithChar (toString code) '2' || startsWithChar (toString code) '3') =
      decide (200 ≤ code ∧ code < 400) := by
  have H : ∀ c : Nat, c < 1000 → 100 ≤ c →
      ((startsWithChar (toString c) '2' || startsWithChar (toString c) '3') =
        decide (200 ≤ c ∧ c < 400)) := by decide
  exact H code h2 h1

theorem map_entryUrl_check (targets : List (String × NetResult)) :
    (targets.map fun t => Cli.check_url t.1 t.2).map Cli.entryUrl =
      targets.map fun t => t.1 := by
  induction targets with
  | nil => rfl
  | cons t rest ih => simp [ih, entryUrl_check_url]

/-!
## The claims
-/

/-- C10: the CLI's console display truncates a URL longer than 48
bytes by slicing at byte index 45 without checking UTF-8 character
boundaries; on `c10url`, whose bytes 44–45 are the two-byte character
`é`, byte 45 is a continuation byte, so the slice — and hence the
display step of `main` — panics (`urlDisplay` returns `none`). -/
theorem claim_C10 :
    c10url.length > 48 ∧
    isCharBoundary c10url 45 = false ∧
    urlDisplay c10url = none := by decide

/-- C2 counterexample: the CLI's `check_url` does NOT always return an
outcome record — on a transport failure it propagates an
`Err((url, message))` value past the unit boundary. -/
theorem claim_C2_counterexample :
    Cli.check_url "http://example.com" netErr =
      Except.error ("http://example.com", "connection timed out") := by rfl

/-- C2 (amended): the GUI's `check_single_url` absorbs every transport
failure into a returned record with `status = "ERROR"` and
`success = false`; the CLI's `check_url` instead returns
`Err((url, message))` on transport failure, and the caller (`main`'s
collection loop) converts that error into an `"ERROR"` outcome row and
counts it as `down`, so per-target failures are absorbed at the loop,
not inside the unit. -/
theorem claim_C2_amended (url msg : String) (elapsed : Nat)
    (stamp st2 : String) (s : Cli.Stats) :
    (Gui.check_single_url url ⟨.error msg, elapsed, stamp⟩).status = "ERROR" ∧
    (Gui.check_single_url url ⟨.error msg, elapsed, stamp⟩).success = false ∧
    Cli.check_url url ⟨.error msg, elapsed, stamp⟩ = Except.error (url, msg) ∧
    Cli.collectRow st2 (Except.error (url, msg)) =
      { url := url, status := "ERROR", reason := msg,
        time_ms := 0, size_bytes := 0, timestamp := st2 } ∧
    (Cli.statsStep s (Except.error (url, msg))).down = s.down + 1 :=
  ⟨rfl, rfl, rfl, rfl, rfl⟩

/-- C4 counterexample: a CLI run over a single target that fails at the
transport level after 5 ms produces an outcome row with
`time_ms = 0` — the elapsed time is NOT recorded, contradicting the
claim that the recorded time equals the (non-zero) elapsed time. -/
theorem claim_C4_counterexample :
    netErr.elapsed = 5 ∧
    (Cli.mainRun clock0 [("http://a", netErr)]).2 =
      [{ url := "http://a", status := "ERROR",
         reason := "connection timed out", time_ms := 0, size_bytes := 0,
         timestamp := "1970-01-01 00:00:00 UTC" }] := by decide

/-- C4 (amended): on a transport failure the GUI variant produces the
outcome the claim describes — `status = "ERROR"`, `reason` the rendered
failure, `size_bytes = 0`, `success = false`, and `time_ms` equal to
the elapsed time up to the failure; the CLI variant instead discards
the elapsed time: its error row always has `time_ms = 0`. -/
theorem claim_C4_amended (url msg : String) (elapsed : Nat)
    (stamp st2 : String) :
    Gui.check_single_url url ⟨.error msg, elapsed, stamp⟩ =
      { url := url, status := "ERROR", reason := msg, time_ms := elapsed,
        size_bytes := 0, timestamp := stamp, success := false } ∧
    Cli.collectRow st2 (Cli.check_url url ⟨.error msg, elapsed, stamp⟩) =
      { url := url, status := "ERROR", reason := msg, time_ms := 0,
        size_bytes := 0, timestamp := st2 } :=
  ⟨rfl, rfl⟩

/-- C3 counterexample: a CLI run whose only outcome is a 404 response
(7 ms) has `up = 0`, yet `min_time`, `max_time` and the average's
numerator `total_time` all equal 7 — the unsuccessful outcome DID
contribute to the three statistics. -/
theorem claim_C3_counterexample :
    (Cli.mainRun clock0 [("http://a", net404)]).1.up = 0 ∧
    (Cli.mainRun clock0 [("http://a", net404)]).1.min_time = 7 ∧
    (Cli.mainRun clock0 [("http://a", net404)]).1.max_time = 7 ∧
    (Cli.mainRun clock0 [("http://a", net404)]).1.total_time = 7 := by decide

/-- C7 counterexample: the up-equals-zero marker is not distinguishable
from a genuine 0 ms measurement, and is not even always a marker.  A
CLI run with one transport failure (`up = 0`) exports
`min_time_ms = 0` — exactly the value exported by a run with a genuine
0 ms success; the GUI reports `min_time = 0` in the same two
situations; and a CLI run with `up = 0` whose target answered 404 in
7 ms exports `min_time_ms = 7`, a plain measurement, not a marker. -/
theorem claim_C7_counterexample :
    ((Cli.mainRun clock0 [("http://a", netErr)]).1.up = 0 ∧
      Cli.jsonMinTime (Cli.mainRun clock0 [("http://a", netErr)]).1 = 0) ∧
    ((Cli.mainRun clock0 [("http://b", net200)]).1.up = 1 ∧
      Cli.jsonMinTime (Cli.mainRun clock0 [("http://b", net200)]).1 = 0) ∧
    ((Gui.check_urls [("http://a", netErr)]).2.up = 0 ∧
      (Gui.check_urls [("http://a", netErr)]).2.min_time = 0) ∧
    ((Gui.check_urls [("http://b", net200)]).2.up = 1 ∧
      (Gui.check_urls [("http://b", net200)]).2.min_time = 0) ∧
    ((Cli.mainRun clock0 [("http://c", net404)]).1.up = 0 ∧
      Cli.jsonMinTime (Cli.mainRun clock0 [("http://c", net404)]).1 = 7) := by
  decide

/-- C1: for every input list of N targets, the run produces exactly N
outcome records, one per target — every target string appears as the
`url` field of exactly one outcome (counted with multiplicity), in any
completion order of the CLI's `buffer_unordered` stream; the GUI
collects its results in spawn order, one per target. -/
theorem claim_C1 (clock : Nat → String) (targets : List (String × NetResult))
    (rs : List (Except (String × String) Cli.ResultRow))
    (hperm : rs.Perm (targets.map fun t => Cli.check_url t.1 t.2)) :
    ((Cli.mainLoop clock 0 Cli.initStats rs).2.length = targets.length ∧
      ∀ u : String,
        ((Cli.mainLoop clock 0 Cli.initStats rs).2.map
            (fun row => row.url)).count u =
          (targets.map (fun t => t.1)).count u) ∧
    ((Gui.check_urls targets).1.length = targets.length ∧
      (Gui.check_urls targets).1.map (fun r => r.url) =
        targets.map (fun t => t.1)) := by
  refine ⟨⟨?_, ?_⟩, ?_, ?_⟩
  · rw [mainLoop_snd_length, hperm.length_eq, List.length_map]
  · intro u
    rw [mainLoop_snd_urls, (hperm.map Cli.entryUrl).count_eq u,
      map_entryUrl_check]
  · simp [Gui.check_urls]
  · simp [Gui.check_urls, List.map_map, Function.comp, check_single_url_url]

theorem claim_C1_witness :
    rs0.Perm (targets0.map fun t => Cli.check_url t.1 t.2) ∧
    (((Cli.mainLoop clock0 0 Cli.initStats rs0).2.length = targets0.length ∧
      ∀ u : String,
        ((Cli.mainLoop clock0 0 Cli.initStats rs0).2.map
            (fun row => row.url)).count u =
          (targets0.map (fun t => t.1)).count u) ∧
    ((Gui.check_urls targets0).1.length = targets0.length ∧
      (Gui.check_urls targets0).1.map (fun r => r.url) =
        targets0.map (fun t => t.1))) :=
  ⟨by decide, claim_C1 clock0 targets0 rs0 (by decide)⟩

/-- C6: for every run, `up + down = total` and `total = N` (the number
of targets), in any completion order of the CLI results. -/
theorem claim_C6 (clock : Nat → String) (targets : List (String × NetResult))
    (rs : List (Except (String × String) Cli.ResultRow))
    (hperm : rs.Perm (targets.map fun t => Cli.check_url t.1 t.2)) :
    ((Cli.mainLoop clock 0 Cli.initStats rs).1.up +
        (Cli.mainLoop clock 0 Cli.initStats rs).1.down =
          (Cli.mainLoop clock 0 Cli.initStats rs).1.total ∧
      (Cli.mainLoop clock 0 Cli.initStats rs).1.total = targets.length) ∧
    ((Gui.check_urls targets).2.up + (Gui.check_urls targets).2.down =
        (Gui.check_urls targets).2.total ∧
      (Gui.check_urls targets).2.total = targets.length) := by
  have hlen : rs.length = targets.length := by
    rw [hperm.length_eq, List.length_map]
  refine ⟨⟨?_, ?_⟩, ?_, ?_⟩
  · rw [mainLoop_fst, cliFold_up, cliFold_down, cliFold_total]
    have h := countP_add_countP_not Cli.isUpEntry
      (fun r => ! Cli.isUpEntry r) (fun a => rfl) rs
    simp [Cli.initStats]
    omega
  · rw [mainLoop_fst, cliFold_total]
    simp [Cli.initStats, hlen]
  · simp only [Gui.check_urls]
    rw [finalize_up, finalize_down, finalize_total,
      guiFold_up, guiFold_down, guiFold_total]
    have h := countP_add_countP_not (fun r : Gui.UrlResult => r.success)
      (fun r => ! r.success) (fun a => rfl)
      (targets.map fun t => Gui.check_single_url t.1 t.2)
    simp only [Gui.initStats]
    omega
  · simp only [Gui.check_urls]
    rw [finalize_total, guiFold_total]
    simp [Gui.initStats]

theorem claim_C6_witness :
    rs0.Perm (targets0.map fun t => Cli.check_url t.1 t.2) ∧
    (((Cli.mainLoop clock0 0 Cli.initStats rs0).1.up +
        (Cli.mainLoop clock0 0 Cli.initStats rs0).1.down =
          (Cli.mainLoop clock0 0 Cli.initStats rs0).1.total ∧
      (Cli.mainLoop clock0 0 Cli.initStats rs0).1.total = targets0.length) ∧
    ((Gui.check_urls targets0).2.up + (Gui.check_urls targets0).2.down =
        (Gui.check_urls targets0).2.total ∧
      (Gui.check_urls targets0).2.total = targets0.length)) :=
  ⟨by decide, claim_C6 clock0 targets0 rs0 (by decide)⟩

/-- C9: the computed statistics are order-independent — any permutation
of the collected outcomes yields an identical `Stats` record (all seven
fields, hence also the derived JSON metadata), in both variants. -/
theorem claim_C9 {rs rs' : List (Except (String × String) Cli.ResultRow)}
    {l l' : List Gui.UrlResult}
    (h : rs.Perm rs') (hg : l.Perm l') :
    Cli.statsOf rs = Cli.statsOf rs' ∧
    Gui.finalize l (l.foldl Gui.statsStep Gui.initStats) =
      Gui.finalize l' (l'.foldl Gui.statsStep Gui.initStats) :=
  ⟨cliStatsOf_perm h, guiStats_perm hg⟩

theorem claim_C9_witness :
    (rs0.Perm rs0swap ∧ gl0.Perm gl0swap) ∧
    (Cli.statsOf rs0 = Cli.statsOf rs0swap ∧
      Gui.finalize gl0 (gl0.foldl Gui.statsStep Gui.initStats) =
        Gui.finalize gl0swap (gl0swap.foldl Gui.statsStep Gui.initStats)) :=
  ⟨⟨by decide, by decide⟩, claim_C9 (by decide) (by decide)⟩

/-- C3 (amended): the GUI computes `min_time`/`max_time` and the
average only over outcomes with `success = true`, as the claim states;
the CLI instead computes `min_time`, `max_time` and the average's
numerator `total_time` over ALL outcomes that received an HTTP
response — including 4xx/5xx responses — and only transport-error
entries contribute nothing to them. -/
theorem claim_C3_amended (rs : List (Except (String × String) Cli.ResultRow))
    (results : List Gui.UrlResult) :
    (Cli.statsOf rs).min_time = (Cli.okTimes rs).foldl minStep U128MAX ∧
    (Cli.statsOf rs).max_time = (Cli.okTimes rs).foldl maxStep 0 ∧
    (Cli.statsOf rs).total_time = (Cli.okTimes rs).sum ∧
    Cli.jsonAvgTime (Cli.statsOf rs) =
      (if 0 < (Cli.statsOf rs).up
        then (Cli.okTimes rs).sum / (Cli.statsOf rs).up else 0) ∧
    (results.foldl Gui.statsStep Gui.initStats).min_time =
      (Gui.successTimes results).foldl minStep U128MAX ∧
    (results.foldl Gui.statsStep Gui.initStats).max_time =
      (Gui.successTimes results).foldl maxStep 0 ∧
    (Gui.finalize results (results.foldl Gui.statsStep Gui.initStats)).avg_time =
      (if 0 < (results.foldl Gui.statsStep Gui.initStats).up
        then (Gui.successTimes results).sum /
          (results.foldl Gui.statsStep Gui.initStats).up
        else 0) := by
  refine ⟨?_, ?_, ?_, ?_, ?_, ?_, ?_⟩
  · unfold Cli.statsOf
    rw [cliFold_min_time]
    simp [Cli.initStats]
  · unfold Cli.statsOf
    rw [cliFold_max_time]
    simp [Cli.initStats]
  · unfold Cli.statsOf
    rw [cliFold_total_time]
    simp [Cli.initStats]
  · unfold Cli.statsOf Cli.jsonAvgTime
    rw [cliFold_total_time]
    simp [Cli.initStats]
  · rw [guiFold_min_time]
    simp [Gui.initStats]
  · rw [guiFold_max_time]
    simp [Gui.initStats]
  · unfold Gui.finalize
    split
    · rename_i h
      simp [h]
    · rename_i h
      rw [guiFold_avg]
      simp [Gui.initStats, h]

/-- C7 (amended): when a run has no successful outcome, both variants
report `avg_time_ms = 0`; the minimum is reported as `0` — by the GUI
always, and by the CLI JSON export when the `u128::MAX` sentinel is
still in place (no response received at all) — a value that coincides
with a genuine 0 ms measurement instead of being distinguishable from
it; only the CLI console output distinguishes the sentinel case by
printing "N/A". -/
theorem claim_C7_amended (s : Cli.Stats) (results : List Gui.UrlResult)
    (hs : s.up = 0) (hmin : s.min_time = U128MAX)
    (hg : (results.foldl Gui.statsStep Gui.initStats).up = 0) :
    Cli.jsonAvgTime s = 0 ∧
    Cli.jsonMinTime s = 0 ∧
    Cli.printMinDisplay s = "N/A" ∧
    (Gui.finalize results (results.foldl Gui.statsStep Gui.initStats)).avg_time = 0 ∧
    (Gui.finalize results (results.foldl Gui.statsStep Gui.initStats)).min_time = 0 := by
  refine ⟨?_, ?_, ?_, ?_, ?_⟩
  · simp [Cli.jsonAvgTime, hs]
  · simp [Cli.jsonMinTime, hmin]
  · simp [Cli.printMinDisplay, hmin]
  · unfold Gui.finalize
    have h0 : ¬ (results.foldl Gui.statsStep Gui.initStats).up > 0 := by omega
    rw [if_neg h0]
    show (results.foldl Gui.statsStep Gui.initStats).avg_time = 0
    rw [guiFold_avg]
    rfl
  · unfold Gui.finalize
    simp [hg]

theorem claim_C7_amended_witness :
    ((Cli.mainRun clock0 [("http://a", netErr)]).1.up = 0 ∧
      (Cli.mainRun clock0 [("http://a", netErr)]).1.min_time = U128MAX ∧
      ([Gui.check_single_url "http://a" netErr].foldl
          Gui.statsStep Gui.initStats).up = 0) ∧
    (Cli.jsonAvgTime (Cli.mainRun clock0 [("http://a", netErr)]).1 = 0 ∧
      Cli.jsonMinTime (Cli.mainRun clock0 [("http://a", netErr)]).1 = 0 ∧
      Cli.printMinDisplay (Cli.mainRun clock0 [("http://a", netErr)]).1 = "N/A" ∧
      (Gui.finalize [Gui.check_single_url "http://a" netErr]
          ([Gui.check_single_url "http://a" netErr].foldl
            Gui.statsStep Gui.initStats)).avg_time = 0 ∧
      (Gui.finalize [Gui.check_single_url "http://a" netErr]
          ([Gui.check_single_url "http://a" netErr].foldl
            Gui.statsStep Gui.initStats)).min_time = 0) :=
  ⟨⟨by decide, by decide, by decide⟩,
    claim_C7_amended (Cli.mainRun clock0 [("http://a", netErr)]).1
      [Gui.check_single_url "http://a" netErr]
      (by decide) (by decide) (by decide)⟩

/-- C5: an outcome derived from a received HTTP response is classified
"up" iff its status code lies in [200, 400) — in the CLI through the
starts-with-'2'-or-'3' test on the status string (equivalent for every
code in the `http::StatusCode` range 100..=999), in the GUI through the
`success` flag — and every transport failure is classified "down". -/
theorem claim_C5 (code : Nat) (h2 : code < 1000) (h1 : 100 ≤ code)
    (url msg stamp : String) (reason : Option String) (clen : Option Nat)
    (elapsed : Nat) (s : Cli.Stats) (s2 : Gui.Stats)
    (r : Except (String × String) Cli.ResultRow) :
    Cli.isUpEntry (Cli.check_url url ⟨.ok ⟨code, reason, clen⟩, elapsed, stamp⟩) =
        decide (200 ≤ code ∧ code < 400) ∧
    (Gui.check_single_url url ⟨.ok ⟨code, reason, clen⟩, elapsed, stamp⟩).success =
        decide (200 ≤ code ∧ code < 400) ∧
    (Cli.statsStep s r).up = s.up + (if Cli.isUpEntry r then 1 else 0) ∧
    Cli.isUpEntry (Except.error (url, msg)) = false ∧
    (Cli.statsStep s (Except.error (url, msg))).down = s.down + 1 ∧
    (Gui.statsStep s2 (Gui.check_single_url url ⟨.error msg, elapsed, stamp⟩)).down =
      s2.down + 1 := by
  refine ⟨?_, rfl, ?_, rfl, rfl, rfl⟩
  · exact startsWith23_iff code h2 h1
  · cases r with
    | ok row =>
      simp only [Cli.statsStep, Cli.isUpEntry]
      split <;> rename_i h <;> simp [h]
    | error e => simp [Cli.statsStep, Cli.isUpEntry]

theorem claim_C5_witness :
    ((404 : Nat) < 1000 ∧ (100 : Nat) ≤ 404) ∧
    (Cli.isUpEntry (Cli.check_url "http://a"
        ⟨.ok ⟨404, some "Not Found", some 3⟩, 7, "s"⟩) =
          decide (200 ≤ (404 : Nat) ∧ (404 : Nat) < 400) ∧
      (Gui.check_single_url "http://a"
        ⟨.ok ⟨404, some "Not Found", some 3⟩, 7, "s"⟩).success =
          decide (200 ≤ (404 : Nat) ∧ (404 : Nat) < 400) ∧
      (Cli.statsStep Cli.initStats (Except.error ("x", "y"))).up =
        Cli.initStats.up +
          (if Cli.isUpEntry (Except.error ("x", "y")) then 1 else 0) ∧
      Cli.isUpEntry (Except.error ("http://a", "boom")) = false ∧
      (Cli.statsStep Cli.initStats (Except.error ("http://a", "boom"))).down =
        Cli.initStats.down + 1 ∧
      (Gui.statsStep Gui.initStats
          (Gui.check_single_url "http://a" ⟨.error "boom", 7, "s"⟩)).down =
        Gui.initStats.down + 1) :=
  ⟨⟨by decide, by decide⟩,
    claim_C5 404 (by decide) (by decide) "http://a" "boom" "s"
      (some "Not Found") (some 3) 7 Cli.initStats Gui.initStats
      (Except.error ("x", "y"))⟩
